import Mathlib

/-!
Verification of `async_twitch.py` (Twitch-Chat-Joiner).

The file shallowly embeds the program's pure decision logic:
configuration validation (`validate_config`), the token fetch policy
(`retrieve_access_token`), the live-status decision
(`retrieve_streaming_status`), the batch query (`get_alive_streamers`),
one reconciliation cycle of the main loop (`cycle`), and the main loop
run over a trace of per-tick network responses (`runMain`).

HTTP effects are modelled by passing the response (status code and JSON
body) as explicit arguments; Python exceptions become `Except` errors;
Python `dict`s become association lists (`List (String × Value)`), and
Python `set`s become `Finset String`.
-/

set_option autoImplicit false

namespace AsyncTwitch

/-- A Python value, as far as the config file and the JSON responses of
this program need: strings, ints, bools, lists and `None`. -/
inductive Value where
  | vStr (s : String)
  | vInt (n : Int)
  | vBool (b : Bool)
  | vList (l : List Value)
  | vNone

/-- The Python runtime type of a value (`type(v)`); `bool` is its own
type, distinct from `int`, exactly as Python's `type` reports it. -/
inductive PyType where
  | str
  | int
  | bool
  | list
  | noneType
  deriving DecidableEq, Repr

/-- `type(v)` for the modelled values. -/
def pyTypeOf : Value → PyType
  | .vStr _ => .str
  | .vInt _ => .int
  | .vBool _ => .bool
  | .vList _ => .list
  | .vNone => .noneType

/-- Python truthiness test `not v`: empty string, zero, `False`, empty
list and `None` are falsy. -/
def falsy : Value → Bool
  | .vStr s => s == ""
  | .vInt n => n == 0
  | .vBool b => !b
  | .vList l => l.isEmpty
  | .vNone => true

/-- A configuration: the JSON object of `config.json`, as an association
list (Python dicts preserve insertion order, and `json.load` keeps each
key once). -/
abbrev Config := List (String × Value)

/-- The errors `validate_config` accumulates: `KeyError(key)` for a
missing key, `TypeError(key)` for a falsy value or a type mismatch. -/
inductive ConfigError where
  | keyError (key : String)
  | typeError (key : String)
  deriving DecidableEq, Repr

/-- The `required_keys` table of `validate_config` (lines 34-42). -/
def required_keys : List (String × PyType) :=
  [("bot_username", .str), ("client_id", .str), ("client_secret", .str),
   ("oauth_token", .str), ("channels", .list), ("wait_time", .int),
   ("verbose", .bool)]

/-- `[k for k in required_keys if k not in config]` (line 45). -/
def not_present_keys (config : Config) : List String :=
  (required_keys.map Prod.fst).filter (fun k => (config.lookup k).isNone)

/-- `[(k, v) for k, v in config.items() if not v and type(v) is not bool]`
(line 59). -/
def not_present_values (config : Config) : List (String × Value) :=
  config.filter (fun p => falsy p.2 && !(pyTypeOf p.2 == PyType.bool))

/-- `[(k, v) for k, v in config.items() if required_keys.get(k) is not type(v)]`
(lines 73-75); for a key outside `required_keys`, `get` returns `None`,
which is never `type(v)`, so the entry is always reported. -/
def bad_type_values (config : Config) : List (String × Value) :=
  config.filter (fun p => !(required_keys.lookup p.1 == some (pyTypeOf p.2)))

/-- `validate_config` (lines 31-93): three passes, each raising
`Exception(errors)` with that pass's accumulated errors when non-empty,
so a failing pass hides the errors of the later passes. -/
def validate_config (config : Config) : Except (List ConfigError) Bool :=
  let npk := not_present_keys config
  if npk.length != 0 then
    .error (npk.map ConfigError.keyError)
  else
    let npv := not_present_values config
    if npv.length != 0 then
      .error (npv.map fun p => ConfigError.typeError p.1)
    else
      let btv := bad_type_values config
      if btv.length != 0 then
        .error (btv.map fun p => ConfigError.typeError p.1)
      else
        .ok true

/-- Whether an `Except` result is an error (a raised Python exception). -/
def isError {ε α : Type} : Except ε α → Bool
  | .error _ => true
  | .ok _ => false

/-- Lines 96-100 and 398: `validate_config()` runs at import time, before
`bottom.Client(...)` is built and before any `bot.connect()` task is
scheduled, so a validation failure stops the process before any
connection attempt; `.ok true` stands for "validated, then connected". -/
def startup (config : Config) : Except (List ConfigError) Bool :=
  match validate_config config with
  | .error es => .error es
  | .ok _ => .ok true

/-- The spec's error taxonomy for API failures: `AuthServiceError` is the
`Exception("Failed to fetch access token.")` of line 188,
`MissingTokenError` the `KeyError("access_token")` of line 206, and
`MalformedResponseError` the `KeyError("data")` of line 241. -/
inductive ApiError where
  | authServiceError
  | missingTokenError
  | malformedResponseError
  deriving DecidableEq, Repr

/-- `str(status).startswith("2")` (line 190) for a (non-negative) HTTP
status code: its first decimal digit is `'2'`. -/
def str_starts_with_2 (status : Nat) : Bool :=
  (Nat.toDigits 10 status).head? == some '2'

/-- `response_data.get("access_token")`: `None` both when the key is
absent and when its value is JSON `null`. -/
def dict_get (key : String) (d : List (String × Value)) : Value :=
  match d.lookup key with
  | none => .vNone
  | some v => v

/-- `retrieve_access_token` (lines 166-213), with the HTTP response
passed in as its status code and parsed JSON body. Returns the warning
flag (`True` when the non-2xx warning of lines 190-197 was logged)
together with the token. Status exactly 500 raises (line 182); any other
non-2xx status only logs the warning; an absent token raises
`KeyError("access_token")` (line 206). -/
def retrieve_access_token (status : Nat) (response_data : List (String × Value)) :
    Except ApiError (Bool × Value) :=
  if status == 500 then
    .error .authServiceError
  else
    let warned := !(str_starts_with_2 status)
    match dict_get "access_token" response_data with
    | .vNone => .error .missingTokenError
    | v => .ok (warned, v)

/-- `retrieve_streaming_status` (lines 216-243), with the status-query
response body passed in as its parsed JSON. When `response_data.get("data")`
is not a list it raises `KeyError("data")` (line 241); otherwise it
returns `{streamer_name: len(response_data["data"]) == 1}` (line 243). -/
def retrieve_streaming_status (streamer_name : String)
    (response_data : List (String × Value)) : Except ApiError (String × Bool) :=
  match dict_get "data" response_data with
  | .vList l => .ok (streamer_name, l.length == 1)
  | _ => .error .malformedResponseError

/-- The network responses one reconciliation tick observes: the token
endpoint's status and body, and each streamer's status-query body. -/
structure TickEnv where
  tokenStatus : Nat
  tokenBody : List (String × Value)
  statusBody : String → List (String × Value)

/-- `get_alive_streamers` (lines 262-288): fetch one access token, then
query every streamer's status (`asyncio.gather` propagates the first
failure, so any single failure fails the whole batch), and keep the names
whose status came back `True`. -/
def get_alive_streamers (streamers : List String) (env : TickEnv) :
    Except ApiError (List String) := do
  let _access_token ← retrieve_access_token env.tokenStatus env.tokenBody
  let data ← streamers.mapM (fun s => retrieve_streaming_status s (env.statusBody s))
  return (data.filter (fun p => p.2 == true)).map Prod.fst

/-- The module-level `STREAMER_LISTS` dict (line 26): the two tracking
sets, `"joined"` and `"offline"`. -/
structure StreamerLists where
  joined : Finset String
  offline : Finset String
  deriving DecidableEq

/-- `STREAMER_LISTS = {"joined": set(), "offline": set(config.get("channels"))}`
(line 26). -/
def STREAMER_LISTS (channels : List String) : StreamerLists :=
  { joined := ∅, offline := channels.toFinset }

/-- `previous_alive_streamers.difference(currently_alive_streamers)`
(lines 373-375). -/
def now_offline_streamers (previous_alive currently_alive : Finset String) :
    Finset String :=
  previous_alive \ currently_alive

/-- `currently_alive_streamers.difference(STREAMER_LISTS.get("joined", set()))`
(lines 381-383). -/
def to_join_streamers (currently_alive previous_alive : Finset String) :
    Finset String :=
  currently_alive \ previous_alive

/-- An outbound chat-gateway command sent by `leave_channels` /
`join_channels` (lines 291-308). -/
inductive Command where
  | part (channel : String)
  | join (channel : String)
  deriving DecidableEq, Repr

/-- Whether a command is a PART. -/
def Command.isPart : Command → Bool
  | .part _ => true
  | .join _ => false

/-- Whether a command is a JOIN. -/
def Command.isJoin : Command → Bool
  | .part _ => false
  | .join _ => true

/-- One body of the `while True` loop of `main` after the live set is in
hand (lines 362-389): diff against the previous `joined` set, replace
both tracking sets, then `leave_channels` on the now-offline streamers
followed by `join_channels` on the newly live ones, each sending its
`#`-prefixed channel name. Returns the new `STREAMER_LISTS` state and
the sequence of commands sent. Python's `list(set)` iteration order is
unspecified; it is modelled by listing each set in sorted order. -/
def cycle (st : StreamerLists) (live : List String) :
    StreamerLists × List Command :=
  let currently_alive := live.toFinset
  let now_offline := now_offline_streamers st.joined currently_alive
  let to_join := to_join_streamers currently_alive st.joined
  ({ joined := currently_alive, offline := now_offline },
    (now_offline.sort (· ≤ ·)).map (fun c => Command.part ("#" ++ c))
      ++ (to_join.sort (· ≤ ·)).map (fun c => Command.join ("#" ++ c)))

/-- The `while True` loop of `main` (lines 357-393) run over a finite
trace of per-tick network responses. `get_alive_streamers` is awaited
before any state mutation or channel command; if it raises, the
exception propagates out of `main`, ending the loop: no further tick is
processed (`bot.loop.run_forever()` keeps the process alive, but the
`main` task is dead). -/
def runMain (channels : List String) :
    StreamerLists → List TickEnv → StreamerLists × List Command
  | st, [] => (st, [])
  | st, env :: rest =>
    match get_alive_streamers channels env with
    | .error _ => (st, [])
    | .ok live =>
      let (st1, cmds) := cycle st live
      let (st2, cmdsRest) := runMain channels st1 rest
      (st2, cmds ++ cmdsRest)

/-- A well-formed configuration, parameterised by its `wait_time` value. -/
def baseConfig (n : Int) : Config :=
  [("bot_username", .vStr "b"), ("client_id", .vStr "c"),
   ("client_secret", .vStr "s"), ("oauth_token", .vStr "o"),
   ("channels", .vList [.vStr "alice"]), ("wait_time", .vInt n),
   ("verbose", .vBool false)]

/-- A configuration that is missing `bot_username` and gives `wait_time`
a string value: two different kinds of validation error at once. -/
def mixedBadConfig : Config :=
  [("client_id", .vStr "c"), ("client_secret", .vStr "s"),
   ("oauth_token", .vStr "o"), ("channels", .vList [.vStr "alice"]),
   ("wait_time", .vStr "5"), ("verbose", .vBool true)]

/-- A tick on which the token endpoint answers HTTP 500. -/
def envTokenFail : TickEnv :=
  { tokenStatus := 500
    tokenBody := [("access_token", .vStr "tok")]
    statusBody := fun _ => [("data", .vList [])] }

/-- A tick on which everything succeeds and every queried streamer is
live (its data list has exactly one entry). -/
def envAllLive : TickEnv :=
  { tokenStatus := 200
    tokenBody := [("access_token", .vStr "tok")]
    statusBody := fun _ => [("data", .vList [.vNone])] }

/- ### Helper lemmas -/

/-- A successful association-list lookup returns an entry of the list. -/
theorem mem_of_lookup_eq_some {α β : Type} [BEq α] [LawfulBEq α]
    {l : List (α × β)} {k : α} {v : β} (h : l.lookup k = some v) : (k, v) ∈ l := by
  induction l with
  | nil => simp [List.lookup] at h
  | cons p t ih =>
    rcases p with ⟨a, b⟩
    rcases hk : (k == a) with _ | _
    · simp only [List.lookup_cons, hk] at h
      exact List.mem_cons_of_mem _ (ih h)
    · simp only [List.lookup_cons, hk] at h
      cases h
      exact (eq_of_beq hk) ▸ List.mem_cons_self _ _

/-- Looking up a key that is not among the entries' keys returns `none`. -/
theorem lookup_eq_none_of_not_mem_keys {α β : Type} [BEq α] [LawfulBEq α]
    {l : List (α × β)} {k : α} (h : k ∉ l.map Prod.fst) : l.lookup k = none := by
  induction l with
  | nil => rfl
  | cons p t ih =>
    rcases p with ⟨a, b⟩
    simp only [List.map_cons, List.mem_cons] at h
    push_neg at h
    have hk : (k == a) = false := beq_eq_false_iff_ne.mpr h.1
    simp only [List.lookup_cons, hk]
    exact ih h.2

/-- `l.length != 0` tests non-emptiness. -/
theorem length_bne_zero {α : Type} (l : List α) : ((l.length != 0) = true) ↔ l ≠ [] := by
  cases l <;> simp

/- ### Claim theorems -/

/-- C1: every reconciliation cycle computes
`nowOffline = joined − live` and `toJoin = live − joined` (standard set
difference); with `joined = {}` and `live = {"alice"}` it yields
`toJoin = {"alice"}`, `nowOffline = {}`, and with
`joined = {"alice","bob"}` and `live = {"bob"}` it yields `toJoin = {}`,
`nowOffline = {"alice"}`. -/
theorem cycle_computes_set_differences :
    (∀ joined live : Finset String,
        now_offline_streamers joined live = joined \ live
        ∧ to_join_streamers live joined = live \ joined)
  ∧ (∀ (st : StreamerLists) (live : List String),
        (cycle st live).1.offline = now_offline_streamers st.joined live.toFinset
        ∧ (cycle st live).1.joined = live.toFinset)
  ∧ to_join_streamers ({"alice"} : Finset String) ∅ = {"alice"}
  ∧ now_offline_streamers ∅ ({"alice"} : Finset String) = ∅
  ∧ to_join_streamers ({"bob"} : Finset String) ({"alice", "bob"} : Finset String) = ∅
  ∧ now_offline_streamers ({"alice", "bob"} : Finset String) ({"bob"} : Finset String)
      = {"alice"} := by
  refine ⟨fun j l => ⟨rfl, rfl⟩, fun st live => ⟨rfl, rfl⟩, ?_, ?_, ?_, ?_⟩
  all_goals decide

/-- C2 fails on the code: with the single configured channel `"alice"`
and a first cycle on which nobody is live, the new state has
`joined = {}` and `offline = {} \ {} = {}`, so at rest after that cycle
the configured identifier `"alice"` is a member of neither tracking set,
not of exactly one. -/
theorem exactly_one_tracking_set_counterexample :
    "alice" ∉ (cycle (STREAMER_LISTS ["alice"]) []).1.joined
  ∧ "alice" ∉ (cycle (STREAMER_LISTS ["alice"]) []).1.offline := by
  decide

/-- C2 amended: at rest every configured identifier is in at most one of
the two tracking sets (they are disjoint), and in the initial state it is
in exactly one (`offline`); both sets are replaced together, from the
freshly computed live set, by the cycle. After a cycle an identifier that
is neither live nor previously joined is in neither set. -/
theorem tracking_sets_disjoint :
    (∀ (channels : List String) (c : String), c ∈ channels →
        c ∈ (STREAMER_LISTS channels).offline ∧ c ∉ (STREAMER_LISTS channels).joined)
  ∧ (∀ (st : StreamerLists) (live : List String),
        (cycle st live).1.joined ∩ (cycle st live).1.offline = ∅) := by
  constructor
  · intro channels c hc
    exact ⟨List.mem_toFinset.mpr hc, Finset.not_mem_empty c⟩
  · intro st live
    ext x
    simp [cycle, now_offline_streamers]

/-- Witness for the amended C2 at a concrete input. -/
theorem tracking_sets_disjoint_witness :
    "alice" ∈ (STREAMER_LISTS ["alice"]).offline
  ∧ "alice" ∉ (STREAMER_LISTS ["alice"]).joined :=
  tracking_sets_disjoint.1 ["alice"] "alice" (by decide)

/-- C3 fails on the code in its "the loop retries on the next scheduled
tick" half: after a tick whose token fetch answers HTTP 500, the
exception propagates out of `main`, so a following fully healthy tick is
never processed — the state stays at its prior value and no join is ever
sent, whereas processing the healthy tick alone joins `"alice"`. The
"no partial join/leave is applied" half does hold. -/
theorem cycle_error_no_retry_counterexample :
    runMain ["alice"] (STREAMER_LISTS ["alice"]) [envTokenFail, envAllLive]
      = (STREAMER_LISTS ["alice"], [])
  ∧ (runMain ["alice"] (STREAMER_LISTS ["alice"]) [envAllLive]).1.joined
      = {"alice"}
  ∧ (runMain ["alice"] (STREAMER_LISTS ["alice"]) [envTokenFail, envAllLive]).1.joined
      ≠ {"alice"} := by
  refine ⟨rfl, rfl, ?_⟩
  decide

/-- C3 amended: if any error (token fetch failure or per-streamer status
failure) occurs during a reconciliation cycle, the cycle is abandoned
with no partial join/leave applied — the joined and offline sets retain
exactly their previous values and no command is sent — but the loop does
not retry: the exception ends the `main` loop and no later tick is
processed. -/
theorem cycle_error_aborts_loop (channels : List String) (st : StreamerLists)
    (env : TickEnv) (rest : List TickEnv) (e : ApiError)
    (h : get_alive_streamers channels env = .error e) :
    runMain channels st (env :: rest) = (st, []) := by
  simp [runMain, h]

/-- Witness for the amended C3 at a concrete input. -/
theorem cycle_error_aborts_loop_witness :
    runMain ["alice"] (STREAMER_LISTS ["alice"]) [envTokenFail]
      = (STREAMER_LISTS ["alice"], []) :=
  cycle_error_aborts_loop ["alice"] (STREAMER_LISTS ["alice"]) envTokenFail []
    .authServiceError rfl

/-- C4 fails on the code: the only status the token fetch treats as a
server error is exactly 500 (`response.status == 500`, line 182). For the
server-error status 502 it takes the tolerant path instead: it logs the
non-2xx warning and still reads the token from the body, succeeding
rather than failing with `AuthServiceError`. -/
theorem five_xx_token_fetch_counterexample :
    500 ≤ 502 ∧ 502 < 600
  ∧ retrieve_access_token 502 [("access_token", Value.vStr "tok")]
      = .ok (true, Value.vStr "tok")
  ∧ isError (retrieve_access_token 502 [("access_token", Value.vStr "tok")])
      = false :=
  ⟨by decide, by decide, rfl, rfl⟩

/-- C4 amended: for status exactly 500 the token fetch fails with
`AuthServiceError`; for every other non-2xx status (server errors such
as 502 included) it only logs a warning and still attempts to read the
token from the body, failing with `MissingTokenError` only when the
token is absent. -/
theorem access_token_status_policy :
    (∀ body, retrieve_access_token 500 body = .error .authServiceError)
  ∧ (∀ (status : Nat) (body : List (String × Value)),
        status ≠ 500 → str_starts_with_2 status = false →
        retrieve_access_token status body =
          match dict_get "access_token" body with
          | .vNone => .error .missingTokenError
          | v => .ok (true, v)) := by
  constructor
  · intro body; rfl
  · intro status body h1 h2
    have hb : (status == 500) = false := beq_eq_false_iff_ne.mpr h1
    cases hd : dict_get "access_token" body <;>
      simp [retrieve_access_token, hb, h2, hd]

/-- Witness for the amended C4 at a concrete input. -/
theorem access_token_status_policy_witness :
    retrieve_access_token 404 [("access_token", Value.vStr "tok")]
      = .ok (true, Value.vStr "tok") :=
  access_token_status_policy.2 404 [("access_token", Value.vStr "tok")]
    (by decide) (by decide)

/-- C5: the live determination returns `true` if and only if the status
response's `data` list has length exactly 1; length 0 and length ≥ 2
both yield `false`. -/
theorem live_iff_data_length_one (name : String)
    (response_data : List (String × Value)) (l : List Value)
    (h : dict_get "data" response_data = Value.vList l) :
    (retrieve_streaming_status name response_data = .ok (name, true) ↔ l.length = 1)
  ∧ ((l.length = 0 ∨ 2 ≤ l.length) →
      retrieve_streaming_status name response_data = .ok (name, false)) := by
  have hrun : retrieve_streaming_status name response_data = .ok (name, l.length == 1) := by
    simp [retrieve_streaming_status, h]
  constructor
  · rw [hrun]
    simp
  · intro hl
    rw [hrun]
    have hne : l.length ≠ 1 := by omega
    rw [beq_eq_false_iff_ne.mpr hne]

/-- Witness for C5 at a concrete input. -/
theorem live_iff_data_length_one_witness :
    retrieve_streaming_status "alice" [("data", Value.vList [Value.vNone])]
      = .ok ("alice", true) :=
  (live_iff_data_length_one "alice" [("data", Value.vList [Value.vNone])]
    [Value.vNone] rfl).1.mpr rfl

/-- C6: when the status response's `data` field is not a list (absent,
or any non-list value), the live check fails with
`MalformedResponseError` instead of returning a verdict. -/
theorem malformed_data_raises (name : String)
    (response_data : List (String × Value))
    (h : ∀ l : List Value, dict_get "data" response_data ≠ Value.vList l) :
    retrieve_streaming_status name response_data
      = .error .malformedResponseError := by
  rcases hd : dict_get "data" response_data with s | n | b | l | _
  case vList => exact absurd hd (h l)
  all_goals simp [retrieve_streaming_status, hd]

/-- Witness for C6: the spec's Scenario D, body `{"data": "not-a-list"}`. -/
theorem malformed_data_raises_witness :
    retrieve_streaming_status "alice" [("data", Value.vStr "not-a-list")]
      = .error .malformedResponseError :=
  malformed_data_raises "alice" [("data", Value.vStr "not-a-list")]
    (fun _ h => Value.noConfusion h)

/-- C7 fails on the code: `mixedBadConfig` is missing the required key
`bot_username` and also carries a type mismatch (`wait_time` is a
string, as `bad_type_values` itself reports), yet validation raises
listing only the missing key — the type mismatch present in the
configuration is not enumerated, because the three validation passes
raise one at a time. -/
theorem validation_not_exhaustive_counterexample :
    validate_config mixedBadConfig = .error [ConfigError.keyError "bot_username"]
  ∧ (bad_type_values mixedBadConfig).map Prod.fst = ["wait_time"]
  ∧ ConfigError.typeError "wait_time" ∉ [ConfigError.keyError "bot_username"] :=
  ⟨rfl, rfl, by decide⟩

/-- C7 amended: validation fails before any connection attempt, and it
enumerates every error of its earliest failing pass — all missing
required keys; if none are missing, all falsy non-bool values; if none,
all type mismatches — but a failing pass raises at once, so errors of
the later passes are not enumerated alongside it. -/
theorem validation_stagewise_exhaustive (config : Config) :
    (∀ es, validate_config config = .error es → startup config = .error es)
  ∧ (not_present_keys config ≠ [] →
      validate_config config
        = .error ((not_present_keys config).map ConfigError.keyError))
  ∧ (not_present_keys config = [] → not_present_values config ≠ [] →
      validate_config config
        = .error ((not_present_values config).map fun p => ConfigError.typeError p.1))
  ∧ (not_present_keys config = [] → not_present_values config = [] →
      bad_type_values config ≠ [] →
      validate_config config
        = .error ((bad_type_values config).map fun p => ConfigError.typeError p.1))
  ∧ (not_present_keys config = [] → not_present_values config = [] →
      bad_type_values config = [] →
      validate_config config = .ok true) := by
  refine ⟨?_, ?_, ?_, ?_, ?_⟩
  · intro es h
    simp [startup, h]
  · intro h1
    simp only [validate_config]
    rw [if_pos ((length_bne_zero _).mpr h1)]
  · intro h1 h2
    simp only [validate_config]
    rw [if_neg (by simp [h1]), if_pos ((length_bne_zero _).mpr h2)]
  · intro h1 h2 h3
    simp only [validate_config]
    rw [if_neg (by simp [h1]), if_neg (by simp [h2]),
      if_pos ((length_bne_zero _).mpr h3)]
  · intro h1 h2 h3
    simp only [validate_config]
    rw [if_neg (by simp [h1]), if_neg (by simp [h2]), if_neg (by simp [h3])]

/-- Witness for the amended C7 at a concrete input. -/
theorem validation_stagewise_exhaustive_witness :
    validate_config mixedBadConfig
      = .error [ConfigError.keyError "bot_username"] :=
  (validation_stagewise_exhaustive mixedBadConfig).2.1 (by decide)

/-- C8 fails on the code in its "negative" half: a configuration whose
`wait_time` is the negative integer `-1` passes validation (a negative
Python int is truthy and of type `int`, so no pass rejects it); only
`wait_time = 0` is rejected, and then only because `0` is falsy. -/
theorem negative_wait_time_counterexample :
    (baseConfig (-1)).lookup "wait_time" = some (Value.vInt (-1))
  ∧ validate_config (baseConfig (-1)) = .ok true :=
  ⟨rfl, rfl⟩

/-- C8 amended: a zero wait interval fails configuration validation (it
is caught by the falsy-value pass), but a negative interval passes; and
no other minimum or maximum bound is imposed — every non-zero integer
interval validates in an otherwise well-formed configuration. -/
theorem wait_time_validation_policy :
    (∀ config : Config, config.lookup "wait_time" = some (Value.vInt 0) →
        isError (validate_config config) = true)
  ∧ (∀ n : Int, n ≠ 0 → validate_config (baseConfig n) = .ok true) := by
  constructor
  · intro config h
    have hmem : ("wait_time", Value.vInt 0) ∈ config := mem_of_lookup_eq_some h
    have hnpv : ("wait_time", Value.vInt 0) ∈ not_present_values config :=
      List.mem_filter.mpr ⟨hmem, by decide⟩
    have hne : not_present_values config ≠ [] := List.ne_nil_of_mem hnpv
    simp only [validate_config]
    by_cases hk : ((not_present_keys config).length != 0) = true
    · rw [if_pos hk]; rfl
    · rw [if_neg hk, if_pos ((length_bne_zero _).mpr hne)]; rfl
  · intro n hn
    have h0 : (n == 0) = false := beq_eq_false_iff_ne.mpr hn
    simp [validate_config, not_present_keys, not_present_values, bad_type_values,
      baseConfig, required_keys, falsy, pyTypeOf, List.lookup, h0]

/-- Witness for the amended C8 at concrete inputs: interval `0` is
rejected, interval `3` is accepted. -/
theorem wait_time_validation_policy_witness :
    isError (validate_config (baseConfig 0)) = true
  ∧ validate_config (baseConfig 3) = .ok true :=
  ⟨wait_time_validation_policy.1 (baseConfig 0) rfl,
   wait_time_validation_policy.2 3 (by decide)⟩

/-- C9: in every reconciliation cycle the command sequence sent to the
gateway is a block of PART commands (for the now-offline channels)
followed by a block of JOIN commands (for the newly live channels):
every PART is issued before any JOIN. -/
theorem parts_before_joins (st : StreamerLists) (live : List String) :
    ∃ parts joins : List Command,
      (cycle st live).2 = parts ++ joins
      ∧ (∀ c ∈ parts, c.isPart = true)
      ∧ (∀ c ∈ joins, c.isJoin = true) := by
  refine ⟨_, _, rfl, ?_, ?_⟩
  · intro c hc
    obtain ⟨a, _, rfl⟩ := List.mem_map.mp hc
    rfl
  · intro c hc
    obtain ⟨a, _, rfl⟩ := List.mem_map.mp hc
    rfl

/-- C10: a configuration containing any key outside the seven required
ones fails validation even when every required key is present — the
value passes may or may not fire, but the type pass looks every config
key up in `required_keys`, and for an unknown key `get` returns `None`,
which is never `type(v)`. -/
theorem unknown_key_fails_validation (config : Config) (k : String) (v : Value)
    (hpresent : ∀ r ∈ required_keys.map Prod.fst, (config.lookup r).isSome)
    (hmem : (k, v) ∈ config)
    (hout : k ∉ required_keys.map Prod.fst) :
    isError (validate_config config) = true := by
  have hnpk : not_present_keys config = [] := by
    apply List.filter_eq_nil_iff.mpr
    intro a ha
    have := hpresent a ha
    simp only [Option.isNone]
    rcases hcl : config.lookup a with _ | w
    · rw [hcl] at this; simp at this
    · simp
  have hbad : (k, v) ∈ bad_type_values config := by
    apply List.mem_filter.mpr
    refine ⟨hmem, ?_⟩
    rw [lookup_eq_none_of_not_mem_keys hout]
    rfl
  have hne : bad_type_values config ≠ [] := List.ne_nil_of_mem hbad
  simp only [validate_config]
  rw [if_neg (by simp [hnpk])]
  by_cases h2 : ((not_present_values config).length != 0) = true
  · rw [if_pos h2]; rfl
  · rw [if_neg h2, if_pos ((length_bne_zero _).mpr hne)]; rfl

/-- Witness for C10 at a concrete input: a well-formed configuration
with the extra key `"extra"`. -/
theorem unknown_key_fails_validation_witness :
    isError (validate_config (baseConfig 5 ++ [("extra", Value.vStr "x")])) = true :=
  unknown_key_fails_validation (baseConfig 5 ++ [("extra", Value.vStr "x")])
    "extra" (Value.vStr "x") (by decide) (by simp [baseConfig]) (by decide)

end AsyncTwitch
